import Mathlib

/-!
# Verification of `visualize.py` (workout-parser)

A shallow embedding of the data-shaping logic of `src/visualize.py`:
the loader (`load_data`), the six aggregate-and-render functions, and
`main`, together with proofs about the program's claimed properties.

Modelling conventions:

* CSV cell values for `reps`/`weight` are modelled as `Option ℚ`:
  `none` stands for a cell that `pd.to_numeric(..., errors='coerce')`
  turns into NaN (non-numeric or missing); `some q` is a parsed number.
  Float arithmetic is idealised as exact rational arithmetic.
* Dates are day counts from a fixed epoch chosen to be a Monday, so that
  weekday arithmetic is plain `% 7`.
* `pandas` `groupby(sort=True)` sorts the distinct keys ascending; we model
  the distinct-key computation with `List.dedup` followed by a sort.
* `Series.sort_values(ascending=False)` is implemented in pandas as an
  ascending argsort followed by reversal of the index order; we model it as
  a stable ascending sort (`List.insertionSort`) followed by `List.reverse`.
  (The default `kind='quicksort'` leaves tie order formally unspecified;
  the stable model captures the documented stable kinds and the actual
  small-array behaviour.)
* `Series.nlargest(n)` uses `keep='first'`: ties are prioritised in series
  order, i.e. it is a stable descending sort followed by `take n`.
* `pd.merge(..., how='left')` on `session_id` is modelled with `find?`;
  the data model declares `session_id` unique in the sessions table.
* The file system is a parameter `fsExists : String → Bool`; file contents
  are parameters holding the already-parsed tables.
-/

namespace WorkoutViz

/-! ## Python `str.replace` -/

/-- One left-to-right scan of Python `str.replace` over character lists.
At each position, if the (nonempty) pattern matches, the replacement is
emitted and the scan continues after the matched occurrence; otherwise the
character is kept.  The `Nat` argument is structural fuel; one unit is
consumed per step, so fuel equal to the length of the string suffices. -/
def replaceFuel (pat rep : List Char) : Nat → List Char → List Char
  | 0, s => s
  | _ + 1, [] => []
  | n + 1, c :: s =>
    if pat.isPrefixOf (c :: s) then
      rep ++ replaceFuel pat rep n (List.drop (pat.length - 1) s)
    else
      c :: replaceFuel pat rep n s

/-- Python `s.replace(pat, rep)`: replaces every non-overlapping occurrence
of `pat` in `s`, scanning left to right.  (For an empty pattern Python
inserts `rep` everywhere; the script only ever uses nonempty patterns, and
we return `s` unchanged in that unused case.) -/
def pyReplace (s pat rep : String) : String :=
  if pat.toList = [] then s
  else ⟨replaceFuel pat.toList rep.toList s.toList.length s.toList⟩

/-- The companion sessions path derived by `load_data` (line 34):
`sets_path.replace("sets_", "workouts_").replace("_clean", "_20251017_113224")`. -/
def workoutsPathOf (sets_path : String) : String :=
  pyReplace (pyReplace sets_path "sets_" "workouts_") "_clean" "_20251017_113224"

/-! ## Lexicographic order on strings

Python (and hence pandas' groupby on string keys) compares strings
lexicographically by code point.  We use an executable Boolean
lexicographic comparison on the underlying character lists. -/

/-- Lexicographic less-or-equal on character lists, by code point. -/
def lexLeB : List Char → List Char → Bool
  | [], _ => true
  | _ :: _, [] => false
  | a :: as, b :: bs =>
    if a < b then true
    else if b < a then false
    else lexLeB as bs

/-- Lexicographic less-or-equal on strings. -/
def strLe (a b : String) : Prop := lexLeB a.toList b.toList = true

instance : DecidableRel strLe := fun a b => instDecidableEqBool (lexLeB a.toList b.toList) true

/-- Strictly-before in lexicographic order (as used for tie-break talk:
`a` comes strictly before `b`). -/
def strLt (a b : String) : Prop := strLe a b ∧ a ≠ b

/-! ## Data model

`Set record` and `Session record` from the spec's data model, plus the
in-memory frames the script manipulates. -/

/-- A raw row of the sets CSV before numeric coercion.  `none` in
`reps`/`weight` stands for a cell that fails numeric parsing (NaN after
`pd.to_numeric(..., errors='coerce')`). -/
structure RawSetRow where
  session_id : Nat
  exercise_name : String
  reps : Option ℚ
  weight : Option ℚ
deriving DecidableEq

/-- A row of the workouts (sessions) CSV.  The date column is modelled as
already parsed (line 41 `pd.to_datetime` is assumed to succeed), a day
count from a Monday epoch. -/
structure WorkoutRow where
  session_id : Nat
  session_date : Nat
deriving DecidableEq

/-- A fully loaded set record: coerced numerics, derived `volume`, and the
merged `session_date` column (`none` when the left join found no match). -/
structure SetRow where
  session_id : Nat
  exercise_name : String
  reps : ℚ
  weight : ℚ
  volume : ℚ
  session_date : Option Nat
deriving DecidableEq

/-- The joined sets table.  `hasDate` records whether the `session_date`
column exists on the frame (it does exactly when the workouts file was
found and merged). -/
structure SetsFrame where
  rows : List SetRow
  hasDate : Bool
deriving DecidableEq

/-- The workouts table.  `weekCol` models the `week` column that
`generate_workout_frequency` assigns onto the frame in place (line 100);
it is `none` as loaded.  (The loaded frame always carries the parsed
`session_date` column, so the `'session_date' not in workouts_df.columns`
disjunct of line 95 is statically false in this embedding.) -/
structure WorkoutsFrame where
  rows : List WorkoutRow
  weekCol : Option (List Nat)
deriving DecidableEq

/-! ## Loader (`load_data`, lines 26-61) -/

/-- `pd.to_numeric(col, errors='coerce').fillna(0)` on one cell: parse
failures and missing values become 0. -/
def coerceCell (c : Option ℚ) : ℚ := c.getD 0

/-- `load_data`: read the sets table; derive the companion workouts path;
if that file exists, load it and left-join `session_date` onto the sets on
`session_id`; coerce `reps`/`weight`; derive `volume = reps * weight`.
Returns the prepared sets frame and the optional workouts frame.

The left join is modelled with `find?`; the data model declares
`session_id` unique in the sessions table.  The source converts numerics
after the merge; the two steps are independent and are fused into one map
here. -/
def load_data (fsExists : String → Bool) (setsFile : List RawSetRow)
    (workoutsFile : List WorkoutRow) (sets_path : String) :
    SetsFrame × Option WorkoutsFrame :=
  if fsExists (workoutsPathOf sets_path) then
    let rows := setsFile.map fun r =>
      { session_id := r.session_id
        exercise_name := r.exercise_name
        reps := coerceCell r.reps
        weight := coerceCell r.weight
        volume := coerceCell r.reps * coerceCell r.weight
        session_date :=
          (workoutsFile.find? fun w => w.session_id == r.session_id).map
            WorkoutRow.session_date }
    (⟨rows, true⟩, some ⟨workoutsFile, none⟩)
  else
    let rows := setsFile.map fun r =>
      { session_id := r.session_id
        exercise_name := r.exercise_name
        reps := coerceCell r.reps
        weight := coerceCell r.weight
        volume := coerceCell r.reps * coerceCell r.weight
        session_date := none }
    (⟨rows, false⟩, none)

/-! ## Grouping and sorting building blocks -/

/-- `df.groupby(key, sort=True).agg(...)`: the distinct keys, sorted
ascending by `le`, each paired with the aggregate of its group.  (`dedup`
computes the distinct keys; their pre-sort order is irrelevant because the
result is sorted.) -/
def groupAgg {α K V : Type} [DecidableEq K] (le : K → K → Prop) [DecidableRel le]
    (key : α → K) (agg : List α → V) (rows : List α) : List (K × V) :=
  (((rows.map key).dedup).insertionSort le).map fun k =>
    (k, agg (rows.filter fun r => decide (key r = k)))

/-- `series.sort_values(ascending=False)`: pandas computes an ascending
argsort and reverses it, so we model a stable ascending sort by value
followed by reversal. -/
def sortValuesDescending {K V : Type} [LinearOrder V] (l : List (K × V)) : List (K × V) :=
  (l.insertionSort fun a b => a.2 ≤ b.2).reverse

/-- `series.nlargest(n)` with the default `keep='first'`: a stable
descending sort by value (ties keep series order), then the first `n`. -/
def nlargestVals {K V : Type} [LinearOrder V] (n : Nat) (l : List (K × V)) : List (K × V) :=
  (l.insertionSort fun a b => b.2 ≤ a.2).take n

/-- `groupby('exercise_name')['volume'].sum()`: total volume per exercise,
keys in ascending (lexicographic) order. -/
def volumeByExercise (rows : List SetRow) : List (String × ℚ) :=
  groupAgg strLe SetRow.exercise_name (fun g => (g.map SetRow.volume).sum) rows

/-! ## Aggregators (six generate functions)

Each is modelled as the Python function: it receives references to the
loaded frame(s), returns its chart-ready summary, and also returns the
frames as they stand after the call, so that in-place column assignments
are observable.  A summary of `none` means the function returned early
("Skipped") without writing its chart. -/

/-- `generate_top_exercises_by_volume` (lines 64-88): group by
`exercise_name`, sum `volume`, sort descending, keep the first 10. -/
def generate_top_exercises_by_volume (sets_df : SetsFrame) :
    List (String × ℚ) × SetsFrame :=
  ((sortValuesDescending (volumeByExercise sets_df.rows)).take 10, sets_df)

/-- `dt.to_period('W')` for a day count `d` (epoch is a Monday): the weekly
period anchored `W-SUN`, identified by the Sunday that ends the Monday–Sunday
week containing `d`.  The period's string form is
`"start/end"` with ISO dates, whose lexicographic order agrees with the
numeric order of this bucket value. -/
def pandasWeekBucket (d : Nat) : Nat := d + (6 - d % 7)

/-- `generate_workout_frequency` (lines 91-120): skip when no workouts
frame is available; otherwise assign the derived `week` column onto the
frame in place, group the rows by week and count them (`size()`), keys in
ascending (chronological) order. -/
def generate_workout_frequency (workouts_df : Option WorkoutsFrame) :
    Option (List (Nat × Nat)) × Option WorkoutsFrame :=
  match workouts_df with
  | none => (none, none)
  | some w =>
    let weeks := w.rows.map fun r => pandasWeekBucket r.session_date
    (some (groupAgg (· ≤ ·) id List.length weeks), some { w with weekCol := some weeks })

/-- The rows paired with their session dates, dropping rows whose
`session_date` is null: `groupby` drops NaN/NaT keys (`dropna=True`). -/
def datePairs (rows : List SetRow) : List (Nat × SetRow) :=
  rows.filterMap fun r => r.session_date.map fun d => (d, r)

/-- Ascending order on `(session_date, exercise_name)` group keys:
pandas sorts a multi-key groupby lexicographically. -/
def dateNameLe (p q : Nat × String) : Prop :=
  p.1 < q.1 ∨ (p.1 = q.1 ∧ strLe p.2 q.2)

instance : DecidableRel dateNameLe := fun p q => by
  unfold dateNameLe; exact inferInstance

/-- `generate_exercise_progression` (lines 123-157): skip when the frame
has no `session_date` column; otherwise take the 5 exercises with the
highest total volume (`nlargest(5)`), filter the sets to those exercises
(into a copy), and sum volume grouped by `(session_date, exercise_name)`. -/
def generate_exercise_progression (sets_df : SetsFrame) :
    Option (List ((Nat × String) × ℚ)) × SetsFrame :=
  if sets_df.hasDate then
    let top_exercises := (nlargestVals 5 (volumeByExercise sets_df.rows)).map Prod.fst
    let top_df := sets_df.rows.filter fun r => decide (r.exercise_name ∈ top_exercises)
    (some (groupAgg dateNameLe (fun p => (p.1, p.2.exercise_name))
        (fun g => (g.map fun p => p.2.volume).sum) (datePairs top_df)),
      sets_df)
  else (none, sets_df)

/-- `generate_sets_distribution` (lines 160-183): `groupby('session_id').size()`,
i.e. the per-session set counts, in ascending `session_id` order (the
histogram consumes only these values). -/
def generate_sets_distribution (sets_df : SetsFrame) : List Nat × SetsFrame :=
  ((groupAgg (· ≤ ·) SetRow.session_id List.length sets_df.rows).map Prod.snd, sets_df)

/-- `groupby('exercise_name')['session_id'].nunique()` for one group: the
number of distinct sessions containing the exercise. -/
def nuniqueSessions (g : List SetRow) : Nat := ((g.map SetRow.session_id).dedup).length

/-- `generate_exercise_frequency` (lines 186-211): distinct-session count
per exercise, sorted descending, keep the first 15. -/
def generate_exercise_frequency (sets_df : SetsFrame) : List (String × Nat) × SetsFrame :=
  ((sortValuesDescending
      (groupAgg strLe SetRow.exercise_name nuniqueSessions sets_df.rows)).take 15,
    sets_df)

/-- The summary dashboard's data (lines 214-277): headline statistics and
the four panels.  `sets_over_time` is `none` when the frame has no
`session_date` column (the panel is omitted). -/
structure SummaryStats where
  total_workouts : Nat
  total_sets : Nat
  total_exercises : Nat
  total_volume : ℚ
  avg_sets_per_workout : ℚ
  volume_pie : List (String × ℚ)
  avg_reps_bar : List (String × ℚ)
  weight_hist : List ℚ
  sets_over_time : Option (List (Nat × Nat))
deriving DecidableEq

/-- `generate_summary_stats` (lines 214-277).  It receives both frames but
reads only the sets frame; the guard `if total_workouts > 0` protects the
average from division by zero. -/
def generate_summary_stats (sets_df : SetsFrame) (workouts_df : Option WorkoutsFrame) :
    SummaryStats × (SetsFrame × Option WorkoutsFrame) :=
  let total_workouts := ((sets_df.rows.map SetRow.session_id).dedup).length
  let total_sets := sets_df.rows.length
  ({ total_workouts := total_workouts
     total_sets := total_sets
     total_exercises := ((sets_df.rows.map SetRow.exercise_name).dedup).length
     total_volume := (sets_df.rows.map SetRow.volume).sum
     avg_sets_per_workout :=
       if total_workouts > 0 then (total_sets : ℚ) / (total_workouts : ℚ) else 0
     volume_pie := nlargestVals 10 (volumeByExercise sets_df.rows)
     avg_reps_bar := nlargestVals 10 (groupAgg strLe SetRow.exercise_name
       (fun g => (g.map SetRow.reps).sum / (g.length : ℚ)) sets_df.rows)
     weight_hist := (sets_df.rows.filter fun r => decide (0 < r.weight)).map SetRow.weight
     sets_over_time :=
       if sets_df.hasDate then
         some (groupAgg (· ≤ ·) Prod.fst List.length (datePairs sets_df.rows))
       else none },
   (sets_df, workouts_df))

/-! ## Entry point (`main`, lines 280-316) -/

/-- The outcome of one run: the exit status, whether the error/usage
message was printed, the chart files written (in pipeline order), and the
skip warnings printed. -/
structure RunResult where
  exitStatus : Nat
  usageErrorShown : Bool
  written : List String
  warnings : List String
deriving DecidableEq

/-- The default input path used when no argument is given (line 286;
the directory of the script is abstracted away). -/
def defaultSetsPath : String := "output/sets_20251017_clean.csv"

/-- `main`: resolve the sets path from `argv` (first positional argument,
else the default); abort with exit status 1 and a usage message if it does
not exist; otherwise load the data and run the six aggregate-and-render
passes in order, writing one HTML file per non-skipped chart. -/
def main (fsExists : String → Bool) (setsFile : List RawSetRow)
    (workoutsFile : List WorkoutRow) (argv : List String) : RunResult :=
  if fsExists (argv.headD defaultSetsPath) then
    let ld := load_data fsExists setsFile workoutsFile (argv.headD defaultSetsPath)
    let sets_df := ld.1
    let step2 := generate_workout_frequency ld.2
    let step3 := generate_exercise_progression sets_df
    let _step6 := generate_summary_stats sets_df step2.2
    let loadWarnings :=
      if ld.2.isNone then
        ["Warning: Workouts file not found", "Time-based visualizations will be skipped."]
      else []
    { exitStatus := 0
      usageErrorShown := false
      written :=
        ["top_exercises_by_volume.html"]
          ++ (if step2.1.isSome then ["workout_frequency.html"] else [])
          ++ (if step3.1.isSome then ["exercise_progression.html"] else [])
          ++ ["sets_distribution.html", "exercise_frequency.html", "summary_dashboard.html"]
      warnings :=
        loadWarnings
          ++ (if step2.1.isNone then ["Skipped: No date information available"] else [])
          ++ (if step3.1.isNone then ["Skipped: No date information available (progression)"] else []) }
  else
    { exitStatus := 1
      usageErrorShown := true
      written := []
      warnings := [] }

/-! ## Definitions following the spec's words (for refinement comparisons) -/

/-- The distinct elements of a list in first-encounter order (keep-first). -/
def firstKeys : List String → List String
  | [] => []
  | k :: ks => k :: ((firstKeys ks).filter fun x => decide (x ≠ k))

/-- Modelled from the spec: aggregator 1 as the spec words it — "group by
exercise_name, sum volume, sort descending, keep top 10.  Ties broken by
original row encounter order (stable sort)."  The groups are formed in
first-encounter order and sorted by a stable descending sort, so equal
totals stay in encounter order. -/
def specTopExercisesByVolume (rows : List SetRow) : List (String × ℚ) :=
  let sums := (firstKeys (rows.map SetRow.exercise_name)).map fun k =>
    (k, ((rows.filter fun r => decide (r.exercise_name = k)).map SetRow.volume).sum)
  (sums.insertionSort fun a b => b.2 ≤ a.2).take 10

/-- Modelled from the spec: "bucket sessions by ISO calendar week".  ISO
calendar weeks are the Monday-started 7-day blocks; with the epoch on a
Monday, the ISO week of day `d` is block `d / 7` (labels aside, the
partition of dates is what the bucketing claim is about). -/
def isoWeekIndex (d : Nat) : Nat := d / 7

/-! ## Concrete inputs used by counterexamples and witnesses -/

/-- A sets file whose single row has a negative (but numeric) `reps` cell. -/
def negRepsFile : List RawSetRow := [⟨1, "Bench", some (-1), some 100⟩]

/-- Two rows, encounter order "A" then "B", with equal volumes. -/
def tieFrame : SetsFrame :=
  ⟨[⟨1, "A", 1, 10, 10, none⟩, ⟨1, "B", 1, 10, 10, none⟩], false⟩

/-- Eleven exercises: ten with volume 1 and one with volume −11, so the
total volume is −1 while the top ten sum to 10. -/
def negVolumeFrame : SetsFrame :=
  ⟨[⟨1, "E01", 1, 1, 1, none⟩, ⟨1, "E02", 1, 1, 1, none⟩, ⟨1, "E03", 1, 1, 1, none⟩,
    ⟨1, "E04", 1, 1, 1, none⟩, ⟨1, "E05", 1, 1, 1, none⟩, ⟨1, "E06", 1, 1, 1, none⟩,
    ⟨1, "E07", 1, 1, 1, none⟩, ⟨1, "E08", 1, 1, 1, none⟩, ⟨1, "E09", 1, 1, 1, none⟩,
    ⟨1, "E10", 1, 1, 1, none⟩, ⟨1, "X", -11, 1, -11, none⟩], false⟩

/-- A one-session workouts frame as loaded (no `week` column yet). -/
def oneWorkoutFrame : WorkoutsFrame := ⟨[⟨1, 0⟩], none⟩

/-- A small dated sets file and its sessions file, for witnesses. -/
def demoSetsFile : List RawSetRow :=
  [⟨1, "Bench", some 10, some 100⟩, ⟨1, "Bench", some 8, some 100⟩,
   ⟨2, "Squat", some 5, some 150⟩, ⟨2, "Row", none, some 60⟩]

/-- Sessions for `demoSetsFile`: session 1 on a Monday, session 2 nine
days later (a Wednesday of the following week). -/
def demoWorkoutsFile : List WorkoutRow := [⟨1, 0⟩, ⟨2, 9⟩]

/-- A sets path matching the naming convention, and a file system on which
exactly that path exists. -/
def demoSetsPath : String := "sets_1_clean.csv"

/-- File system with only the sets file present. -/
def fsSetsOnly : String → Bool := fun p => p == demoSetsPath

/-- File system with both the sets file and its derived workouts file. -/
def fsBothFiles : String → Bool :=
  fun p => p == demoSetsPath || p == workoutsPathOf demoSetsPath

/-! ## General lemmas: the lexicographic string order -/

theorem lexLeB_total : ∀ a b : List Char, lexLeB a b = true ∨ lexLeB b a = true
  | [], _ => Or.inl rfl
  | _ :: _, [] => Or.inr rfl
  | a :: as, b :: bs => by
    rcases lt_trichotomy a b with h | h | h
    · left
      simp [lexLeB, h]
    · subst h
      have := lexLeB_total as bs
      simpa [lexLeB] using this
    · right
      simp [lexLeB, h]

theorem lexLeB_trans :
    ∀ a b c : List Char, lexLeB a b = true → lexLeB b c = true → lexLeB a c = true
  | [], _, _ => by intro _ _; rfl
  | _ :: _, [], _ => by intro h _; exact absurd h (by simp [lexLeB])
  | _ :: _, _ :: _, [] => by intro _ h; exact absurd h (by simp [lexLeB])
  | a :: as, b :: bs, c :: cs => by
    intro h1 h2
    rcases lt_trichotomy a b with hab | hab | hab
    · rcases lt_trichotomy b c with hbc | hbc | hbc
      · simp [lexLeB, lt_trans hab hbc]
      · subst hbc; simp [lexLeB, hab]
      · exact absurd h2 (by simp [lexLeB, hbc, lt_asymm hbc])
    · subst hab
      rcases lt_trichotomy a c with hac | hac | hac
      · simp [lexLeB, hac]
      · subst hac
        simp only [lexLeB, lt_irrefl, if_neg (lt_irrefl a)] at h1 h2 ⊢
        simpa using lexLeB_trans as bs cs (by simpa using h1) (by simpa using h2)
      · exact absurd h2 (by simp [lexLeB, hac, lt_asymm hac])
    · exact absurd h1 (by simp [lexLeB, hab, lt_asymm hab])

theorem strLe_total (a b : String) : strLe a b ∨ strLe b a := lexLeB_total a.toList b.toList

theorem strLe_trans (a b c : String) (h1 : strLe a b) (h2 : strLe b c) : strLe a c :=
  lexLeB_trans a.toList b.toList c.toList h1 h2

/-! ## General lemmas: stable sorting -/

theorem pairwise_trivial {α : Type} : ∀ l : List α, l.Pairwise fun _ _ => True
  | [] => List.Pairwise.nil
  | _ :: l => List.Pairwise.cons (fun _ _ => trivial) (pairwise_trivial l)

/-- Inserting `a` into a list whose pairs already satisfy the stability
invariant keeps the invariant, provided `a` relates by `R` to everything
already in the list.  Here `r` is the (total, transitive) sort order and
`R` records "came strictly earlier in the input". -/
theorem orderedInsert_pairwise_stable {α : Type} {r R : α → α → Prop} [DecidableRel r]
    (total : ∀ a b, r a b ∨ r b a) (trans : ∀ a b c, r a b → r b c → r a c) (a : α) :
    ∀ l : List α, l.Pairwise (fun x y => r x y ∧ (r y x → R x y)) →
      (∀ b ∈ l, R a b) →
      (l.orderedInsert r a).Pairwise fun x y => r x y ∧ (r y x → R x y)
  | [], _, _ => by simp [List.orderedInsert]
  | b :: l, hp, ha => by
    simp only [List.orderedInsert]
    by_cases hab : r a b
    · rw [if_pos hab]
      refine List.Pairwise.cons ?_ hp
      intro y hy
      rcases List.mem_cons.mp hy with rfl | hyl
      · exact ⟨hab, fun _ => ha y (List.mem_cons_self _ _)⟩
      · have hby := (List.pairwise_cons.mp hp).1 y hyl
        exact ⟨trans a b y hab hby.1, fun _ => ha y (List.mem_cons_of_mem _ hyl)⟩
    · rw [if_neg hab]
      have hp' := List.pairwise_cons.mp hp
      refine List.Pairwise.cons ?_ ?_
      · intro y hy
        rcases (List.mem_orderedInsert r).mp hy with rfl | hyl
        · exact ⟨(total y b).resolve_left hab, fun h2 => absurd h2 hab⟩
        · exact hp'.1 y hyl
      · exact orderedInsert_pairwise_stable total trans a l hp'.2
          fun c hc => ha c (List.mem_cons_of_mem _ hc)

/-- Stability of `insertionSort`: if the input is `Pairwise R`, the output
is sorted by `r` and, whenever two entries tie in `r`, they keep their `R`
(input) order. -/
theorem insertionSort_pairwise_stable {α : Type} {r R : α → α → Prop} [DecidableRel r]
    (total : ∀ a b, r a b ∨ r b a) (trans : ∀ a b c, r a b → r b c → r a c) :
    ∀ l : List α, l.Pairwise R →
      (l.insertionSort r).Pairwise fun x y => r x y ∧ (r y x → R x y)
  | [], _ => by simp [List.insertionSort]
  | a :: l, hp => by
    simp only [List.insertionSort]
    refine orderedInsert_pairwise_stable total trans a _ ?_ ?_
    · exact insertionSort_pairwise_stable total trans l (List.pairwise_cons.mp hp).2
    · intro b hb
      exact (List.pairwise_cons.mp hp).1 b ((List.mem_insertionSort r).mp hb)

/-- Sortedness of `insertionSort` for a total, transitive relation. -/
theorem insertionSort_pairwise_of_total {α : Type} {r : α → α → Prop} [DecidableRel r]
    (total : ∀ a b, r a b ∨ r b a) (trans : ∀ a b c, r a b → r b c → r a c)
    (l : List α) : (l.insertionSort r).Pairwise r :=
  (insertionSort_pairwise_stable (R := fun _ _ => True) total trans l
    (pairwise_trivial l)).imp fun h => h.1

/-- `sortValuesDescending` of a `Pairwise R` input is weakly descending by
value and, on ties, reverses the input order (it reverses a stable
ascending sort). -/
theorem sortValuesDescending_pairwise {K V : Type} [LinearOrder V]
    {R : K × V → K × V → Prop} (l : List (K × V)) (h : l.Pairwise R) :
    (sortValuesDescending l).Pairwise fun p q => q.2 ≤ p.2 ∧ (p.2 ≤ q.2 → R q p) := by
  unfold sortValuesDescending
  rw [List.pairwise_reverse]
  exact insertionSort_pairwise_stable (r := fun a b : K × V => a.2 ≤ b.2)
    (fun a b => le_total a.2 b.2) (fun a b c h1 h2 => le_trans h1 h2) l h

/-! ## General lemmas: `groupAgg` -/

theorem groupAgg_map_fst {α K V : Type} [DecidableEq K] (le : K → K → Prop)
    [DecidableRel le] (key : α → K) (agg : List α → V) (rows : List α) :
    (groupAgg le key agg rows).map Prod.fst
      = ((rows.map key).dedup).insertionSort le := by
  unfold groupAgg
  rw [List.map_map]
  have h : (Prod.fst ∘ fun k =>
      (k, agg (rows.filter fun r => decide (key r = k)))) = fun k : K => k := rfl
  rw [h]
  exact List.map_id' _

theorem groupAgg_sorted_keys_nodup {α K V : Type} [DecidableEq K] (le : K → K → Prop)
    [DecidableRel le] (key : α → K) (agg : List α → V) (rows : List α) :
    ((groupAgg le key agg rows).map Prod.fst).Nodup := by
  rw [groupAgg_map_fst]
  exact (List.perm_insertionSort le ((rows.map key).dedup)).nodup_iff.mpr
    ((rows.map key).nodup_dedup)

/-- The group keys are pairwise strictly ascending: `le` holds and the keys
are distinct. -/
theorem groupAgg_pairwise {α K V : Type} [DecidableEq K] {le : K → K → Prop}
    [DecidableRel le] (total : ∀ a b, le a b ∨ le b a)
    (trans : ∀ a b c, le a b → le b c → le a c)
    (key : α → K) (agg : List α → V) (rows : List α) :
    (groupAgg le key agg rows).Pairwise fun p q => le p.1 q.1 ∧ p.1 ≠ q.1 := by
  have hs : (((rows.map key).dedup).insertionSort le).Pairwise le :=
    insertionSort_pairwise_of_total total trans _
  have hn : (((rows.map key).dedup).insertionSort le).Nodup :=
    (List.perm_insertionSort le ((rows.map key).dedup)).nodup_iff.mpr
      ((rows.map key).nodup_dedup)
  have := hs.and hn
  unfold groupAgg
  exact List.pairwise_map.mpr this

/-- Every entry of `groupAgg` carries the aggregate of its key's fiber. -/
theorem groupAgg_mem_snd {α K V : Type} [DecidableEq K] (le : K → K → Prop)
    [DecidableRel le] (key : α → K) (agg : List α → V) (rows : List α) :
    ∀ p ∈ groupAgg le key agg rows,
      p.2 = agg (rows.filter fun r => decide (key r = p.1)) := by
  intro p hp
  obtain ⟨k, _, rfl⟩ := List.mem_map.mp hp
  rfl

/-- Every row's key appears among the group keys. -/
theorem groupAgg_key_complete {α K V : Type} [DecidableEq K] (le : K → K → Prop)
    [DecidableRel le] (key : α → K) (agg : List α → V) (rows : List α) :
    ∀ r ∈ rows, key r ∈ (groupAgg le key agg rows).map Prod.fst := by
  intro r hr
  rw [groupAgg_map_fst]
  exact (List.mem_insertionSort le).mpr
    (List.mem_dedup.mpr (List.mem_map_of_mem key hr))

/-! ## General lemmas: sums over fibers -/

/-- Summing `f` fiber-by-fiber over a duplicate-free, complete list of keys
gives the sum over all rows. -/
theorem sum_map_fiber {α K : Type} [DecidableEq K] (key : α → K) (f : α → ℚ) :
    ∀ (ks : List K) (rows : List α), ks.Nodup → (∀ r ∈ rows, key r ∈ ks) →
      (ks.map fun k => ((rows.filter fun r => decide (key r = k)).map f).sum).sum
        = (rows.map f).sum
  | [], rows, _, hcomp => by
    have : rows = [] := by
      cases rows with
      | nil => rfl
      | cons a t => exact absurd (hcomp a (List.mem_cons_self a t)) (List.not_mem_nil _)
    simp [this]
  | k :: ks, rows, hnodup, hcomp => by
    have hkks : k ∉ ks := (List.nodup_cons.mp hnodup).1
    have hsplit :
        (rows.map f).sum
          = ((rows.filter fun r => decide (key r = k)).map f).sum
            + ((rows.filter fun r => !decide (key r = k)).map f).sum := by
      have hp := List.filter_append_perm (fun r => decide (key r = k)) rows
      calc (rows.map f).sum
          = (((rows.filter fun r => decide (key r = k))
              ++ (rows.filter fun r => !decide (key r = k))).map f).sum :=
            ((hp.map f).sum_eq).symm
        _ = _ := by rw [List.map_append, List.sum_append]
    have hfib : ∀ k' ∈ ks,
        ((rows.filter fun r => !decide (key r = k)).filter
            fun r => decide (key r = k'))
          = rows.filter fun r => decide (key r = k') := by
      intro k' hk'
      have hkk : k' ≠ k := fun h => hkks (h ▸ hk')
      rw [List.filter_filter]
      apply List.filter_congr
      intro r _
      by_cases h : key r = k'
      · simp [h, hkk]
      · simp [h]
    have hrec :=
      sum_map_fiber key f ks (rows.filter fun r => !decide (key r = k))
        (List.nodup_cons.mp hnodup).2
        (by
          intro r hr
          have hrrows : r ∈ rows := List.mem_of_mem_filter hr
          have hne : ¬(key r = k) := by
            have := List.of_mem_filter hr
            simpa using this
          rcases List.mem_cons.mp (hcomp r hrrows) with h | h
          · exact absurd h hne
          · exact h)
    have hmapcongr :
        (ks.map fun k' =>
            (((rows.filter fun r => !decide (key r = k)).filter
                fun r => decide (key r = k')).map f).sum)
          = ks.map fun k' =>
              ((rows.filter fun r => decide (key r = k')).map f).sum := by
      apply List.map_congr_left
      intro k' hk'
      rw [hfib k' hk']
    calc ((k :: ks).map fun k' =>
            ((rows.filter fun r => decide (key r = k')).map f).sum).sum
        = ((rows.filter fun r => decide (key r = k)).map f).sum
          + (ks.map fun k' =>
              ((rows.filter fun r => decide (key r = k')).map f).sum).sum := by
          rw [List.map_cons, List.sum_cons]
      _ = ((rows.filter fun r => decide (key r = k)).map f).sum
          + ((rows.filter fun r => !decide (key r = k)).map f).sum := by
          rw [← hmapcongr, hrec]
      _ = (rows.map f).sum := hsplit.symm

/-- The grouped volume sums add up to the total volume over all rows. -/
theorem groupAgg_sum_eq {α K : Type} [DecidableEq K] (le : K → K → Prop)
    [DecidableRel le] (key : α → K) (f : α → ℚ) (rows : List α) :
    ((groupAgg le key (fun g => (g.map f).sum) rows).map Prod.snd).sum
      = (rows.map f).sum := by
  unfold groupAgg
  rw [List.map_map]
  have hcomp :
      (Prod.snd ∘ fun k => (k, ((rows.filter fun r => decide (key r = k)).map f).sum))
        = fun k => ((rows.filter fun r => decide (key r = k)).map f).sum := rfl
  rw [hcomp]
  have hperm := (List.perm_insertionSort le ((rows.map key).dedup)).map
    fun k => ((rows.filter fun r => decide (key r = k)).map f).sum
  rw [hperm.sum_eq]
  exact sum_map_fiber key f ((rows.map key).dedup) rows
    ((rows.map key).nodup_dedup)
    fun r hr => List.mem_dedup.mpr (List.mem_map_of_mem key hr)

/-- `sortValuesDescending` is a permutation of its input. -/
theorem sortValuesDescending_perm {K V : Type} [LinearOrder V] (l : List (K × V)) :
    (sortValuesDescending l).Perm l := by
  unfold sortValuesDescending
  exact (List.reverse_perm _).trans (List.perm_insertionSort _ _)

/-! ## Claim C10 -/

/-- Claim C10: the loader derives the companion sessions path by exactly
two substring replacements on the sets path — every occurrence of
`"sets_"` becomes `"workouts_"` and every occurrence of `"_clean"` becomes
`"_20251017_113224"` — so the default input `sets_20251017_clean.csv`
probes `workouts_20251017_20251017_113224.csv`, and the sessions table is
loaded iff a file exists at the derived path. -/
theorem C10_companion_path :
    workoutsPathOf "sets_20251017_clean.csv" = "workouts_20251017_20251017_113224.csv"
    ∧ ∀ (fsExists : String → Bool) (setsFile : List RawSetRow)
        (workoutsFile : List WorkoutRow) (sets_path : String),
        (load_data fsExists setsFile workoutsFile sets_path).2.isSome
          = fsExists (workoutsPathOf sets_path) := by
  constructor
  · decide
  · intro fsExists setsFile workoutsFile sets_path
    unfold load_data
    rcases Bool.eq_false_or_eq_true (fsExists (workoutsPathOf sets_path)) with h | h <;>
      simp [h]

/-! ## Claim C5 -/

/-- Claim C5: if the sets file does not exist, the program aborts before
generating any chart, shows the error/usage message and exits with status
1; whenever the sets file does exist, the run completes with status 0 and
no usage error. -/
theorem C5_missing_sets_file_aborts (fsExists : String → Bool)
    (setsFile : List RawSetRow) (workoutsFile : List WorkoutRow) (p : String)
    (h : fsExists p = false) :
    (main fsExists setsFile workoutsFile [p]).exitStatus = 1
    ∧ (main fsExists setsFile workoutsFile [p]).written = []
    ∧ (main fsExists setsFile workoutsFile [p]).usageErrorShown = true
    ∧ ∀ (fs2 : String → Bool) (q : String), fs2 q = true →
        (main fs2 setsFile workoutsFile [q]).exitStatus = 0
        ∧ (main fs2 setsFile workoutsFile [q]).usageErrorShown = false := by
  refine ⟨by simp [main, h], by simp [main, h], by simp [main, h], ?_⟩
  intro fs2 q hq
  exact ⟨by simp [main, hq], by simp [main, hq]⟩

theorem C5_missing_sets_file_aborts_witness :
    (main (fun _ => false) demoSetsFile demoWorkoutsFile ["sets.csv"]).exitStatus = 1
    ∧ (main (fun _ => false) demoSetsFile demoWorkoutsFile ["sets.csv"]).written = []
    ∧ (main (fun _ => false) demoSetsFile demoWorkoutsFile ["sets.csv"]).usageErrorShown = true
    ∧ (main (fun _ => true) demoSetsFile demoWorkoutsFile ["sets.csv"]).exitStatus = 0
    ∧ (main (fun _ => true) demoSetsFile demoWorkoutsFile ["sets.csv"]).usageErrorShown = false := by
  have h := C5_missing_sets_file_aborts (fun _ => false) demoSetsFile demoWorkoutsFile
    "sets.csv" rfl
  exact ⟨h.1, h.2.1, h.2.2.1,
    (h.2.2.2 (fun _ => true) "sets.csv" rfl).1,
    (h.2.2.2 (fun _ => true) "sets.csv" rfl).2⟩

/-! ## Claim C7 -/

/-- Claim C7 counterexample: `generate_workout_frequency` does not leave
its input frame unchanged — it assigns the derived `week` column onto the
sessions frame in place (line 100), so after the call the frame differs
from the one passed in. -/
theorem C7_counterexample :
    (generate_workout_frequency (some oneWorkoutFrame)).2 ≠ some oneWorkoutFrame := by
  decide

/-- Claim C7 (amended): five of the six aggregators leave the frames they
receive unchanged, and `generate_summary_stats` returns both frames
untouched; `generate_workout_frequency`, however, mutates the sessions
frame it receives — though only by adding the derived `week` column (its
rows are unchanged, and it never touches the sets frame, which it does not
even receive). -/
theorem C7_mutation_amended (sets_df : SetsFrame) (workouts_df : Option WorkoutsFrame)
    (w : WorkoutsFrame) :
    (generate_top_exercises_by_volume sets_df).2 = sets_df
    ∧ (generate_exercise_progression sets_df).2 = sets_df
    ∧ (generate_sets_distribution sets_df).2 = sets_df
    ∧ (generate_exercise_frequency sets_df).2 = sets_df
    ∧ (generate_summary_stats sets_df workouts_df).2 = (sets_df, workouts_df)
    ∧ (generate_workout_frequency none).2 = none
    ∧ (generate_workout_frequency (some w)).2
        = some { w with
            weekCol := some (w.rows.map fun r => pandasWeekBucket r.session_date) }
    ∧ (generate_workout_frequency (some w)).2.map WorkoutsFrame.rows = some w.rows := by
  refine ⟨rfl, ?_, rfl, rfl, rfl, rfl, rfl, rfl⟩
  unfold generate_exercise_progression
  rcases Bool.eq_false_or_eq_true sets_df.hasDate with h | h <;> simp [h]

/-! ## Claim C1 -/

/-- Claim C1 counterexample: `reps` is not always non-negative — a numeric
negative cell passes through `pd.to_numeric(...).fillna(0)` unchanged, so
the loaded record has `reps = -1 < 0`. -/
theorem C1_counterexample :
    ¬ ∀ r ∈ (load_data (fun _ => false) negRepsFile [] demoSetsPath).1.rows,
        0 ≤ r.reps ∧ 0 ≤ r.weight := by
  decide

/-- Claim C1 (amended): for every loaded set record, `volume` equals
`reps * weight`, and a `reps`/`weight` cell that failed numeric parsing
(or was missing) is mapped to 0 — so those fields are non-negative
whenever the source cell was non-numeric or missing.  (A numeric negative
cell, however, is kept as is: the fields are exactly the coerced cells.) -/
theorem C1_volume_and_coercion (fsExists : String → Bool) (setsFile : List RawSetRow)
    (workoutsFile : List WorkoutRow) (sets_path : String) (i : Nat) (raw : RawSetRow)
    (hraw : setsFile[i]? = some raw) :
    ∃ r, ((load_data fsExists setsFile workoutsFile sets_path).1.rows)[i]? = some r
      ∧ r.volume = r.reps * r.weight
      ∧ (raw.reps = none → r.reps = 0)
      ∧ (raw.weight = none → r.weight = 0)
      ∧ r.reps = coerceCell raw.reps
      ∧ r.weight = coerceCell raw.weight := by
  refine ⟨{ session_id := raw.session_id
            exercise_name := raw.exercise_name
            reps := coerceCell raw.reps
            weight := coerceCell raw.weight
            volume := coerceCell raw.reps * coerceCell raw.weight
            session_date :=
              if fsExists (workoutsPathOf sets_path) then
                (workoutsFile.find? fun w => w.session_id == raw.session_id).map
                  WorkoutRow.session_date
              else none },
    ?_, rfl, ?_, ?_, rfl, rfl⟩
  · unfold load_data
    rcases Bool.eq_false_or_eq_true (fsExists (workoutsPathOf sets_path)) with h | h <;>
      simp [h, List.getElem?_map, hraw]
  · intro h
    simp [coerceCell, h]
  · intro h
    simp [coerceCell, h]

theorem C1_volume_and_coercion_witness :
    demoSetsFile[3]? = some ⟨2, "Row", none, some 60⟩
    ∧ ∃ r, ((load_data fsBothFiles demoSetsFile demoWorkoutsFile demoSetsPath).1.rows)[3]?
          = some r
        ∧ r.volume = r.reps * r.weight
        ∧ ((⟨2, "Row", none, some 60⟩ : RawSetRow).reps = none → r.reps = 0)
        ∧ ((⟨2, "Row", none, some 60⟩ : RawSetRow).weight = none → r.weight = 0)
        ∧ r.reps = coerceCell (⟨2, "Row", none, some 60⟩ : RawSetRow).reps
        ∧ r.weight = coerceCell (⟨2, "Row", none, some 60⟩ : RawSetRow).weight := by
  refine ⟨by decide, ?_⟩
  exact C1_volume_and_coercion fsBothFiles demoSetsFile demoWorkoutsFile demoSetsPath 3
    ⟨2, "Row", none, some 60⟩ (by decide)

/-! ## Claim C3 -/

/-- Claim C3: the workout-frequency aggregate buckets the sessions by
calendar week — the pandas weekly (`W-SUN`) period partitions dates
exactly as ISO (Monday-started) calendar weeks do — counts the sessions
in each week, and emits the (week, count) pairs sorted chronologically. -/
theorem C3_workout_frequency (w : WorkoutsFrame) :
    ∃ l, (generate_workout_frequency (some w)).1 = some l
      ∧ l.Pairwise (fun a b : Nat × Nat => a.1 < b.1)
      ∧ (∀ p ∈ l, p.2 = (w.rows.filter fun r =>
            decide (pandasWeekBucket r.session_date = p.1)).length)
      ∧ (∀ r ∈ w.rows, pandasWeekBucket r.session_date ∈ l.map Prod.fst)
      ∧ ∀ d e : Nat,
          pandasWeekBucket d = pandasWeekBucket e ↔ isoWeekIndex d = isoWeekIndex e := by
  refine ⟨groupAgg (· ≤ ·) id List.length
      (w.rows.map fun r : WorkoutRow => pandasWeekBucket r.session_date),
    rfl, ?_, ?_, ?_, ?_⟩
  · exact (groupAgg_pairwise (fun a b => Nat.le_total a b)
      (fun a b c h1 h2 => le_trans h1 h2) id List.length _).imp
      fun h => lt_of_le_of_ne h.1 h.2
  · intro p hp
    have h := groupAgg_mem_snd (V := Nat) (· ≤ ·) id List.length
      (w.rows.map fun r => pandasWeekBucket r.session_date) p hp
    rw [h]
    have hfm : ((w.rows.map fun r => pandasWeekBucket r.session_date).filter
          fun k => decide (id k = p.1))
        = (w.rows.filter fun r => decide (pandasWeekBucket r.session_date = p.1)).map
            fun r => pandasWeekBucket r.session_date := by
      rw [List.filter_map]
      rfl
    rw [hfm, List.length_map]
  · intro r hr
    exact groupAgg_key_complete (V := Nat) (· ≤ ·) id List.length _
      (pandasWeekBucket r.session_date)
      (List.mem_map_of_mem (fun r => pandasWeekBucket r.session_date) hr)
  · intro d e
    unfold pandasWeekBucket isoWeekIndex
    omega

theorem C3_workout_frequency_witness :
    (generate_workout_frequency (some ⟨demoWorkoutsFile, none⟩)).1 = some [(6, 1), (13, 1)]
    ∧ (1 : Nat) = (demoWorkoutsFile.filter fun r =>
        decide (pandasWeekBucket r.session_date = 6)).length
    ∧ (pandasWeekBucket 0 = pandasWeekBucket 6 ↔ isoWeekIndex 0 = isoWeekIndex 6) := by
  obtain ⟨l, hl, _, hcount, _, hiso⟩ := C3_workout_frequency ⟨demoWorkoutsFile, none⟩
  have hv : (generate_workout_frequency (some ⟨demoWorkoutsFile, none⟩)).1
      = some [(6, 1), (13, 1)] := by decide
  rw [hl] at hv
  have hleq : l = [(6, 1), (13, 1)] := Option.some.inj hv
  subst hleq
  exact ⟨by decide, hcount (6, 1) (by decide), hiso 0 6⟩

/-! ## Claim C8 -/

/-- Claim C8: the exercise-frequency aggregate groups the sets by
`exercise_name`, counts for each exercise the number of distinct
`session_id`s containing it, sorts descending by that count, and keeps the
first 15. -/
theorem C8_exercise_frequency (sets_df : SetsFrame) :
    ∃ full : List (String × Nat), (generate_exercise_frequency sets_df).1 = full.take 15
      ∧ full.Perm (groupAgg strLe SetRow.exercise_name nuniqueSessions sets_df.rows)
      ∧ full.Pairwise (fun p q : String × Nat => q.2 ≤ p.2)
      ∧ ∀ p ∈ groupAgg strLe SetRow.exercise_name nuniqueSessions sets_df.rows,
          p.2 = ((sets_df.rows.filter fun r =>
              decide (r.exercise_name = p.1)).map SetRow.session_id).dedup.length := by
  refine ⟨sortValuesDescending
      (groupAgg strLe SetRow.exercise_name nuniqueSessions sets_df.rows),
    rfl, sortValuesDescending_perm _, ?_, ?_⟩
  · exact (sortValuesDescending_pairwise _ (pairwise_trivial _)).imp fun h => h.1
  · intro p hp
    rw [groupAgg_mem_snd strLe SetRow.exercise_name nuniqueSessions sets_df.rows p hp]
    rfl

theorem C8_exercise_frequency_witness :
    (generate_exercise_frequency tieFrame).1 = [("B", 1), ("A", 1)]
    ∧ (1 : Nat) = ((tieFrame.rows.filter fun r =>
        decide (r.exercise_name = "A")).map SetRow.session_id).dedup.length := by
  obtain ⟨full, hout, hperm, hpw, hcount⟩ := C8_exercise_frequency tieFrame
  exact ⟨by decide, hcount ("A", 1) (by decide)⟩

/-! ## Claim C2 -/

/-- Claim C2 counterexample: ties in total volume are not returned in
first-encounter order.  On two exercises encountered as "A" then "B" with
equal totals, the code returns `["B", "A"]` (the `groupby` orders groups
alphabetically and the descending sort is the reversal of a stable
ascending sort), while the claimed encounter-order tie-break would return
`["A", "B"]`. -/
theorem C2_counterexample :
    (generate_top_exercises_by_volume tieFrame).1.map Prod.fst = ["B", "A"]
    ∧ (specTopExercisesByVolume tieFrame.rows).map Prod.fst = ["A", "B"]
    ∧ (generate_top_exercises_by_volume tieFrame).1 ≠ specTopExercisesByVolume tieFrame.rows := by
  have h1 : (generate_top_exercises_by_volume tieFrame).1.map Prod.fst = ["B", "A"] := by
    norm_num +decide [generate_top_exercises_by_volume, sortValuesDescending,
      volumeByExercise, groupAgg, tieFrame, List.insertionSort, List.orderedInsert,
      List.dedup, List.pwFilter, strLe, lexLeB]
  have h2 : (specTopExercisesByVolume tieFrame.rows).map Prod.fst = ["A", "B"] := by
    norm_num +decide [specTopExercisesByVolume, firstKeys, tieFrame,
      List.insertionSort, List.orderedInsert]
  refine ⟨h1, h2, fun h => ?_⟩
  have h3 := congrArg (List.map Prod.fst) h
  rw [h1, h2] at h3
  exact absurd h3 (by decide)

/-- Claim C2 (amended): the "top exercises by volume" aggregate groups the
sets by `exercise_name` (the grouping orders the groups alphabetically),
sums `volume` per group, sorts the groups descending by summed volume and
keeps the first 10; when two exercises have equal total volume their
relative order is descending by exercise name (the reversal of the stable
ascending sort applied to the alphabetically ordered groups), not the
first-encounter order of the input rows. -/
theorem C2_top_by_volume_amended (sets_df : SetsFrame) :
    ∃ full : List (String × ℚ),
      (generate_top_exercises_by_volume sets_df).1 = full.take 10
      ∧ full.Perm (volumeByExercise sets_df.rows)
      ∧ full.Pairwise (fun p q : String × ℚ =>
          q.2 ≤ p.2 ∧ (p.2 ≤ q.2 → strLt q.1 p.1))
      ∧ ∀ p ∈ volumeByExercise sets_df.rows,
          p.2 = ((sets_df.rows.filter fun r =>
              decide (r.exercise_name = p.1)).map SetRow.volume).sum := by
  refine ⟨sortValuesDescending (volumeByExercise sets_df.rows),
    rfl, sortValuesDescending_perm _, ?_, ?_⟩
  · have hg : (volumeByExercise sets_df.rows).Pairwise
        fun p q : String × ℚ => strLt p.1 q.1 :=
      groupAgg_pairwise strLe_total strLe_trans SetRow.exercise_name
        (fun g => (g.map SetRow.volume).sum) sets_df.rows
    exact sortValuesDescending_pairwise _ hg
  · intro p hp
    exact groupAgg_mem_snd strLe SetRow.exercise_name
      (fun g => (g.map SetRow.volume).sum) sets_df.rows p hp

theorem C2_top_by_volume_amended_witness :
    ∃ full : List (String × ℚ),
      (generate_top_exercises_by_volume tieFrame).1 = full.take 10
      ∧ full.Perm (volumeByExercise tieFrame.rows)
      ∧ full.Pairwise (fun p q : String × ℚ =>
          q.2 ≤ p.2 ∧ (p.2 ≤ q.2 → strLt q.1 p.1))
      ∧ (("A", (10 : ℚ)) ∈ volumeByExercise tieFrame.rows →
          (10 : ℚ) = ((tieFrame.rows.filter fun r =>
              decide (r.exercise_name = "A")).map SetRow.volume).sum) := by
  obtain ⟨full, hout, hperm, hpw, hcount⟩ := C2_top_by_volume_amended tieFrame
  exact ⟨full, hout, hperm, hpw, fun hm => hcount ("A", 10) hm⟩

/-! ## Claim C6 -/

/-- Claim C6 counterexample: when a volume is negative (possible, since
negative numeric cells pass through the coercion), the kept top-10 sum can
exceed the total: with ten exercises of volume 1 and one of volume −11,
the top ten sum to 10 while the whole column sums to −1. -/
theorem C6_counterexample :
    ¬ (((generate_top_exercises_by_volume negVolumeFrame).1.map Prod.snd).sum
        ≤ (negVolumeFrame.rows.map SetRow.volume).sum) := by
  norm_num +decide [generate_top_exercises_by_volume, sortValuesDescending,
    volumeByExercise, groupAgg, negVolumeFrame, List.insertionSort, List.orderedInsert,
    List.dedup, List.pwFilter, strLe, lexLeB]

/-- Claim C6 (amended): when every record's volume is non-negative (as is
the case for well-formed data), the sum of the per-exercise volumes kept
in the top-10 aggregate is at most the sum of the volume column over all
set records. -/
theorem C6_top_sum_le_total (sets_df : SetsFrame)
    (h : ∀ r ∈ sets_df.rows, 0 ≤ r.volume) :
    ((generate_top_exercises_by_volume sets_df).1.map Prod.snd).sum
      ≤ (sets_df.rows.map SetRow.volume).sum := by
  have hout : (generate_top_exercises_by_volume sets_df).1
      = (sortValuesDescending (volumeByExercise sets_df.rows)).take 10 := rfl
  rw [hout]
  have hperm : (sortValuesDescending (volumeByExercise sets_df.rows)).Perm
      (volumeByExercise sets_df.rows) := sortValuesDescending_perm _
  have hnonneg : ∀ x ∈ (sortValuesDescending (volumeByExercise sets_df.rows)).map
      Prod.snd, 0 ≤ x := by
    intro x hx
    obtain ⟨p, hp, rfl⟩ := List.mem_map.mp hx
    have hpg : p ∈ volumeByExercise sets_df.rows := hperm.mem_iff.mp hp
    rw [groupAgg_mem_snd strLe SetRow.exercise_name
      (fun g => (g.map SetRow.volume).sum) sets_df.rows p hpg]
    refine List.sum_nonneg ?_
    intro v hv
    obtain ⟨r, hr, rfl⟩ := List.mem_map.mp hv
    exact h r (List.mem_of_mem_filter hr)
  calc (((sortValuesDescending (volumeByExercise sets_df.rows)).take 10).map
        Prod.snd).sum
      = (((sortValuesDescending (volumeByExercise sets_df.rows)).map
          Prod.snd).take 10).sum := by rw [List.map_take]
    _ ≤ ((sortValuesDescending (volumeByExercise sets_df.rows)).map Prod.snd).sum := by
        have hsplit := List.sum_take_add_sum_drop
          ((sortValuesDescending (volumeByExercise sets_df.rows)).map Prod.snd) 10
        have hd : 0 ≤ (((sortValuesDescending (volumeByExercise sets_df.rows)).map
            Prod.snd).drop 10).sum :=
          List.sum_nonneg fun x hx => hnonneg x (List.mem_of_mem_drop hx)
        linarith
    _ = ((volumeByExercise sets_df.rows).map Prod.snd).sum :=
        (hperm.map Prod.snd).sum_eq
    _ = (sets_df.rows.map SetRow.volume).sum :=
        groupAgg_sum_eq strLe SetRow.exercise_name SetRow.volume sets_df.rows

theorem C6_top_sum_le_total_witness :
    (∀ r ∈ tieFrame.rows, 0 ≤ r.volume)
    ∧ ((generate_top_exercises_by_volume tieFrame).1.map Prod.snd).sum
        ≤ (tieFrame.rows.map SetRow.volume).sum :=
  ⟨by decide, C6_top_sum_le_total tieFrame (by decide)⟩

/-! ## Claim C4 -/

/-- Claim C4: when the companion sessions file is absent, exactly the
date-dependent charts are skipped — workout frequency, exercise
progression, and the sets-over-time panel of the summary — with a
warning; every other chart is still written and the run exits with
status 0. -/
theorem C4_missing_workouts_degrades (fsExists : String → Bool)
    (setsFile : List RawSetRow) (workoutsFile : List WorkoutRow) (p : String)
    (h1 : fsExists p = true) (h2 : fsExists (workoutsPathOf p) = false) :
    (main fsExists setsFile workoutsFile [p]).exitStatus = 0
    ∧ (main fsExists setsFile workoutsFile [p]).written
        = ["top_exercises_by_volume.html", "sets_distribution.html",
           "exercise_frequency.html", "summary_dashboard.html"]
    ∧ "workout_frequency.html" ∉ (main fsExists setsFile workoutsFile [p]).written
    ∧ "exercise_progression.html" ∉ (main fsExists setsFile workoutsFile [p]).written
    ∧ (generate_workout_frequency (load_data fsExists setsFile workoutsFile p).2).1 = none
    ∧ (generate_exercise_progression (load_data fsExists setsFile workoutsFile p).1).1 = none
    ∧ ((generate_summary_stats (load_data fsExists setsFile workoutsFile p).1
          (load_data fsExists setsFile workoutsFile p).2).1).sets_over_time = none
    ∧ (main fsExists setsFile workoutsFile [p]).warnings ≠ [] := by
  have hld : load_data fsExists setsFile workoutsFile p
      = (⟨setsFile.map fun r =>
          { session_id := r.session_id
            exercise_name := r.exercise_name
            reps := coerceCell r.reps
            weight := coerceCell r.weight
            volume := coerceCell r.reps * coerceCell r.weight
            session_date := none }, false⟩, none) := by
    unfold load_data
    rw [h2]
    rfl
  have hmain : main fsExists setsFile workoutsFile [p]
      = { exitStatus := 0
          usageErrorShown := false
          written := ["top_exercises_by_volume.html", "sets_distribution.html",
            "exercise_frequency.html", "summary_dashboard.html"]
          warnings := ["Warning: Workouts file not found",
            "Time-based visualizations will be skipped.",
            "Skipped: No date information available",
            "Skipped: No date information available (progression)"] } := by
    unfold main
    rw [show ([p] : List String).headD defaultSetsPath = p from rfl, h1, hld]
    rfl
  refine ⟨by rw [hmain], by rw [hmain], by rw [hmain]; decide, by rw [hmain]; decide,
    ?_, ?_, ?_, by rw [hmain]; decide⟩
  · rw [hld]
    rfl
  · rw [hld]
    rfl
  · rw [hld]
    rfl

theorem C4_missing_workouts_degrades_witness :
    fsSetsOnly demoSetsPath = true
    ∧ fsSetsOnly (workoutsPathOf demoSetsPath) = false
    ∧ (main fsSetsOnly demoSetsFile demoWorkoutsFile [demoSetsPath]).exitStatus = 0
    ∧ (main fsSetsOnly demoSetsFile demoWorkoutsFile [demoSetsPath]).written
        = ["top_exercises_by_volume.html", "sets_distribution.html",
           "exercise_frequency.html", "summary_dashboard.html"]
    ∧ (generate_workout_frequency
        (load_data fsSetsOnly demoSetsFile demoWorkoutsFile demoSetsPath).2).1 = none
    ∧ ((generate_summary_stats
          (load_data fsSetsOnly demoSetsFile demoWorkoutsFile demoSetsPath).1
          (load_data fsSetsOnly demoSetsFile demoWorkoutsFile demoSetsPath).2).1).sets_over_time
        = none := by
  have h := C4_missing_workouts_degrades fsSetsOnly demoSetsFile demoWorkoutsFile
    demoSetsPath (by decide) (by decide)
  exact ⟨by decide, by decide, h.1, h.2.1, h.2.2.2.2.1, h.2.2.2.2.2.2.1⟩

/-! ## Claim C9 -/

/-- Claim C9: on an empty sets table (with the sessions file present, so
that every aggregator runs), every aggregator returns an empty summary
rather than failing, the summary statistics are all zero (the
division-by-zero guard yields average 0), and the run still writes all six
chart files and exits with status 0. -/
theorem C9_empty_sets_table (fsExists : String → Bool) (p : String)
    (h1 : fsExists p = true) (h2 : fsExists (workoutsPathOf p) = true) :
    (load_data fsExists [] [] p).1.rows = []
    ∧ (generate_top_exercises_by_volume (load_data fsExists [] [] p).1).1 = []
    ∧ (generate_workout_frequency (load_data fsExists [] [] p).2).1 = some []
    ∧ (generate_exercise_progression (load_data fsExists [] [] p).1).1 = some []
    ∧ (generate_sets_distribution (load_data fsExists [] [] p).1).1 = []
    ∧ (generate_exercise_frequency (load_data fsExists [] [] p).1).1 = []
    ∧ ((generate_summary_stats (load_data fsExists [] [] p).1
          (load_data fsExists [] [] p).2).1).volume_pie = []
    ∧ ((generate_summary_stats (load_data fsExists [] [] p).1
          (load_data fsExists [] [] p).2).1).avg_reps_bar = []
    ∧ ((generate_summary_stats (load_data fsExists [] [] p).1
          (load_data fsExists [] [] p).2).1).weight_hist = []
    ∧ ((generate_summary_stats (load_data fsExists [] [] p).1
          (load_data fsExists [] [] p).2).1).sets_over_time = some []
    ∧ ((generate_summary_stats (load_data fsExists [] [] p).1
          (load_data fsExists [] [] p).2).1).total_sets = 0
    ∧ ((generate_summary_stats (load_data fsExists [] [] p).1
          (load_data fsExists [] [] p).2).1).total_workouts = 0
    ∧ ((generate_summary_stats (load_data fsExists [] [] p).1
          (load_data fsExists [] [] p).2).1).avg_sets_per_workout = 0
    ∧ (main fsExists [] [] [p]).exitStatus = 0
    ∧ (main fsExists [] [] [p]).written
        = ["top_exercises_by_volume.html", "workout_frequency.html",
           "exercise_progression.html", "sets_distribution.html",
           "exercise_frequency.html", "summary_dashboard.html"] := by
  have hld : load_data fsExists [] [] p = (⟨[], true⟩, some ⟨[], none⟩) := by
    unfold load_data
    rw [h2]
    rfl
  have hmain : main fsExists [] [] [p]
      = { exitStatus := 0
          usageErrorShown := false
          written := ["top_exercises_by_volume.html", "workout_frequency.html",
            "exercise_progression.html", "sets_distribution.html",
            "exercise_frequency.html", "summary_dashboard.html"]
          warnings := [] } := by
    unfold main
    rw [show ([p] : List String).headD defaultSetsPath = p from rfl, h1, hld]
    rfl
  rw [hld, hmain]
  refine ⟨rfl, rfl, rfl, rfl, rfl, rfl, rfl, rfl, rfl, rfl, rfl, rfl, rfl, rfl, rfl⟩

theorem C9_empty_sets_table_witness :
    fsBothFiles demoSetsPath = true
    ∧ fsBothFiles (workoutsPathOf demoSetsPath) = true
    ∧ (generate_top_exercises_by_volume (load_data fsBothFiles [] [] demoSetsPath).1).1 = []
    ∧ (generate_workout_frequency (load_data fsBothFiles [] [] demoSetsPath).2).1 = some []
    ∧ ((generate_summary_stats (load_data fsBothFiles [] [] demoSetsPath).1
          (load_data fsBothFiles [] [] demoSetsPath).2).1).avg_sets_per_workout = 0
    ∧ (main fsBothFiles [] [] [demoSetsPath]).exitStatus = 0 := by
  have h := C9_empty_sets_table fsBothFiles demoSetsPath (by decide) (by decide)
  exact ⟨by decide, by decide, h.2.1, h.2.2.1,
    h.2.2.2.2.2.2.2.2.2.2.2.2.1, h.2.2.2.2.2.2.2.2.2.2.2.2.2.1⟩

end WorkoutViz
